import Mathlib

/-!
Shallow embedding of `src/Script.js` (the CYCLISTE page interaction
controller).  DOM element state is modelled explicitly: a `classList` is a
duplicate-free token list (`List String`) with the DOMTokenList `add` /
`remove` / `contains` operations; absent elements are `Option.none`;
scroll offsets are rationals (CSS pixels); timers (the 300ms card-hide
delay) are modelled by an explicit "armed" flag that a separate
elapse step consumes.
-/

namespace Cycliste

/-- The `CONFIG` object of `Script.js`: fixed numeric thresholds. -/
structure Config where
  scrollThreshold : ℚ
  backToTopThreshold : ℚ
  debounceDelay : ℚ
  loadingDelay : ℚ

/-- `CONFIG` from `Script.js` lines 11-16. -/
def CONFIG : Config :=
  { scrollThreshold := 50
  , backToTopThreshold := 300
  , debounceDelay := 150
  , loadingDelay := 800 }

/-- `element.classList.add(c)`: appends the token unless already present. -/
def classAdd (cl : List String) (c : String) : List String :=
  if c ∈ cl then cl else cl ++ [c]

/-- `element.classList.remove(c)`: removes every occurrence of the token. -/
def classRemove (cl : List String) (c : String) : List String :=
  cl.filter (fun t => t ≠ c)

/-- Body of `handleNavbarScroll` (`Script.js` lines 118-126): guard on the
cached navbar being present, then toggle the `scrolled` class on whether
`window.scrollY` exceeds `CONFIG.scrollThreshold` (50). -/
def handleNavbarScroll (scrollY : ℚ) : Option (List String) → Option (List String)
  | none => none
  | some navbar =>
      some (if CONFIG.scrollThreshold < scrollY then classAdd navbar "scrolled"
            else classRemove navbar "scrolled")

/-- Body of `handleBackToTop` (`Script.js` lines 260-268): guard on the
cached back-to-top element, then toggle the `visible` class on whether
`window.scrollY` exceeds `CONFIG.backToTopThreshold` (300). -/
def handleBackToTop (scrollY : ℚ) : Option (List String) → Option (List String)
  | none => none
  | some btn =>
      some (if CONFIG.backToTopThreshold < scrollY then classAdd btn "visible"
            else classRemove btn "visible")

/-- Runs a scroll handler over the sequence of offsets at which the
(trailing-)debounced handler actually fired, in order.  After the debounce
settles, the last fired offset is the current scroll offset. -/
def runScrollEvents (handler : ℚ → Option (List String) → Option (List String))
    (events : List ℚ) (st : Option (List String)) : Option (List String) :=
  events.foldl (fun s y => handler y s) st

/-- State touched by `toggleMobileMenu`: the mobile-menu panel's classList
(`none` when `DOM.mobileMenu` is null) and `document.body.style.overflow`. -/
structure MenuState where
  menu : Option (List String)
  bodyOverflow : String
  deriving DecidableEq

/-- `toggleMobileMenu(show)` (`Script.js` lines 131-141): returns unchanged
when the menu element is absent; otherwise adds the `active` class and sets
body overflow to `hidden` on show, removes the class and restores overflow
to the empty string on hide. -/
def toggleMobileMenu (showMenu : Bool) (st : MenuState) : MenuState :=
  match st.menu with
  | none => st
  | some cl =>
      if showMenu then { menu := some (classAdd cl "active"), bodyOverflow := "hidden" }
      else { menu := some (classRemove cl "active"), bodyOverflow := "" }

/-- A bike card: its `data-category` attribute (`none` when absent) and the
inline styles `filterBikes` touches. -/
structure Card where
  category : Option String
  display : String
  opacity : String
  transform : String
  deriving DecidableEq

/-- One card's pass through the `filterBikes` loop body (`Script.js` lines
214-231): the immediate style writes, paired with whether a 300ms
`setTimeout` to set `display: none` was armed. -/
def filterCardStep (category : Option String) (card : Card) : Card × Bool :=
  let shouldShow := category = some "all" ∨ card.category = category
  if shouldShow then
    ({ card with display := "block", opacity := "1", transform := "translateY(0)" }, false)
  else
    ({ card with opacity := "0", transform := "translateY(20px)" }, true)

/-- The armed hide timer firing: after the 300ms delay the card's display
becomes `none`; with no timer armed, nothing further happens. -/
def elapseHide (p : Card × Bool) : Card :=
  if p.2 then { p.1 with display := "none" } else p.1

/-- A card's state once `filterBikes(category)` has run and the 300ms
transition delay has elapsed. -/
def filterCardSettled (category : Option String) (card : Card) : Card :=
  elapseHide (filterCardStep category card)

/-- `filterBikes(category)` over the cached card list, with every armed
hide timer elapsed. -/
def filterBikesSettled (category : Option String) (cards : List Card) : List Card :=
  (cards.map (filterCardStep category)).map elapseHide

/-- The filter-button click handler's active-state update (`Script.js`
lines 241-244): remove `active` from every button's classList, then add it
to the clicked button (index `i`). -/
def clickFilterActive (btns : List (List String)) (i : Nat) : List (List String) :=
  let cleared := btns.map (fun cl => classRemove cl "active")
  match cleared[i]? with
  | some cl => cleared.set i (classAdd cl "active")
  | none => cleared

/-- The inline styles the loading-screen callback touches. -/
structure LoaderStyle where
  opacity : String
  display : String
  deriving DecidableEq

/-- The load-event callback of `initLoader` (`Script.js` lines 99-108) with
both timeouts elapsed: when the loader element is present its opacity is
set to `0` and, 300ms later, its display to `none`; when the cached
reference is null the guard makes the callback a no-op. -/
def hideLoader : Option LoaderStyle → Option LoaderStyle
  | none => none
  | some _ => some { opacity := "0", display := "none" }

/-- An `img` element as the lazy loader sees it: its `src`, its `data-src`
attribute (`none` when absent), and whether the IntersectionObserver is
still watching it. -/
structure Img where
  src : String
  dataSrc : Option String
  observed : Bool
  deriving DecidableEq

/-- One entry of the IntersectionObserver callback of `initLazyLoading`
(`Script.js` lines 327-336): when the entry is intersecting and the image
has a `data-src`, assign it to `src`, remove the attribute, and unobserve
the image; otherwise do nothing. -/
def lazyLoadEntry (isIntersecting : Bool) (img : Img) : Img :=
  if isIntersecting then
    match img.dataSrc with
    | some s => { src := s, dataSrc := none, observed := false }
    | none => img
  else img

/-- One pass of the IntersectionObserver callback over its entry list:
`initLazyLoading` (`Script.js` line 341) observes exactly the
`img[data-src]` elements, so when that queried collection is empty the
callback runs over no entries. -/
def lazyLoadPass (entries : List (Bool × Img)) : List Img :=
  entries.map (fun e => lazyLoadEntry e.1 e.2)

/-- Page state touched by the contact-form submit handler: the form's field
values and the rest of the page, abstracted as an opaque string. -/
structure ContactPage where
  fields : List String
  rest : String
  deriving DecidableEq

/-- Modelled from the spec: `this.reset()` (`Script.js` line 301) restores
each form control to its markup default value; the contact form's markup is
not in `src/`, and the spec describes a bare contact form stub with no
default values, so reset clears every field to the empty string. -/
def formReset (fields : List String) : List String :=
  fields.map (fun _ => "")

/-- The submit handler of `initContactForm` (`Script.js` lines 294-302):
prevents the default navigation, shows one alert, and resets the form.
Returns (defaultPrevented, alerts shown, resulting page). -/
def contactFormSubmit (p : ContactPage) : Bool × List String × ContactPage :=
  (true, ["شكراً لرسالتك! سنتواصل معك قريباً."],
    { p with fields := formReset p.fields })

/-- Submit dispatch through the guard of `initContactForm` (`Script.js`
line 292): with the cached form reference null, no submit handler is
registered, so no submit produces any effect. -/
def contactFormDispatch (form : Option ContactPage) :
    Option (Bool × List String × ContactPage) :=
  form.map contactFormSubmit

/-- Outcome of one click on a nav link: whether `preventDefault` was called
and the scroll target passed to `window.scrollTo`, if any. -/
structure ClickResult where
  defaultPrevented : Bool
  scrolledTo : Option Int
  deriving DecidableEq

/-- `href.startsWith('#')`: the first character of the href is `#`. -/
def hrefIsInternal (href : String) : Bool :=
  href.data.head? == some '#'

/-- The click handler of `initSmoothScroll` (`Script.js` lines 184-200):
for an `href` starting with `#`, `preventDefault` is called, then the
target is looked up (`resolve` maps the selector to the target's
`offsetTop`, `none` when `document.querySelector` finds nothing) and, when
found, the page scrolls to its `offsetTop - 80`. -/
def smoothScrollClick (href : String) (resolve : String → Option Int) : ClickResult :=
  if hrefIsInternal href then
    { defaultPrevented := true
    , scrolledTo := (resolve href).map (fun offsetTop => offsetTop - 80) }
  else { defaultPrevented := false, scrolledTo := none }

/-- Click dispatch over the cached nav-link collection (`Script.js` lines
183-201): `initSmoothScroll` attaches one handler per link, so a click can
only reach a link present in the collection; over an empty collection no
handler is ever invoked. -/
def smoothScrollClickAt (links : List String) (i : Nat)
    (resolve : String → Option Int) : Option ClickResult :=
  (links[i]?).map (fun href => smoothScrollClick href resolve)

end Cycliste

namespace Cycliste

theorem mem_classAdd (cl : List String) (c t : String) :
    t ∈ classAdd cl c ↔ t ∈ cl ∨ t = c := by
  unfold classAdd
  by_cases h : c ∈ cl
  · simp only [if_pos h]
    constructor
    · exact fun ht => Or.inl ht
    · rintro (ht | rfl)
      · exact ht
      · exact h
  · simp [if_neg h]

theorem mem_classRemove (cl : List String) (c t : String) :
    t ∈ classRemove cl c ↔ t ∈ cl ∧ t ≠ c := by
  simp [classRemove]

theorem self_mem_classAdd (cl : List String) (c : String) :
    c ∈ classAdd cl c := by
  simp [mem_classAdd]

theorem self_not_mem_classRemove (cl : List String) (c : String) :
    c ∉ classRemove cl c := by
  simp [mem_classRemove]

theorem classAdd_idem (cl : List String) (c : String) :
    classAdd (classAdd cl c) c = classAdd cl c := by
  unfold classAdd
  by_cases h : c ∈ cl
  · simp [if_pos h]
  · simp [if_neg h]

theorem classRemove_idem (cl : List String) (c : String) :
    classRemove (classRemove cl c) c = classRemove cl c := by
  simp [classRemove, List.filter_filter]

theorem handleNavbarScroll_some (scrollY : ℚ) (navbar : List String) :
    handleNavbarScroll scrollY (some navbar) =
      some (if CONFIG.scrollThreshold < scrollY then classAdd navbar "scrolled"
            else classRemove navbar "scrolled") := rfl

theorem mem_handleNavbarScroll (scrollY : ℚ) (navbar nb' : List String)
    (h : handleNavbarScroll scrollY (some navbar) = some nb') :
    "scrolled" ∈ nb' ↔ CONFIG.scrollThreshold < scrollY := by
  rw [handleNavbarScroll_some] at h
  cases h
  by_cases hy : CONFIG.scrollThreshold < scrollY
  · simp [if_pos hy, hy, self_mem_classAdd]
  · simp [if_neg hy, hy, self_not_mem_classRemove]

theorem mem_handleBackToTop (scrollY : ℚ) (btn nb' : List String)
    (h : handleBackToTop scrollY (some btn) = some nb') :
    "visible" ∈ nb' ↔ CONFIG.backToTopThreshold < scrollY := by
  unfold handleBackToTop at h
  cases h
  by_cases hy : CONFIG.backToTopThreshold < scrollY
  · simp [if_pos hy, hy, self_mem_classAdd]
  · simp [if_neg hy, hy, self_not_mem_classRemove]

theorem runScrollEvents_navbar_some (events : List ℚ) (navbar : List String) :
    ∃ nb', runScrollEvents handleNavbarScroll events (some navbar) = some nb' := by
  induction events generalizing navbar with
  | nil => exact ⟨navbar, rfl⟩
  | cons y ys ih =>
      simpa [runScrollEvents, handleNavbarScroll_some] using
        ih (if CONFIG.scrollThreshold < y then classAdd navbar "scrolled"
            else classRemove navbar "scrolled")

theorem runScrollEvents_backToTop_some (events : List ℚ) (btn : List String) :
    ∃ nb', runScrollEvents handleBackToTop events (some btn) = some nb' := by
  induction events generalizing btn with
  | nil => exact ⟨btn, rfl⟩
  | cons y ys ih =>
      simpa [runScrollEvents, handleBackToTop] using
        ih (if CONFIG.backToTopThreshold < y then classAdd btn "visible"
            else classRemove btn "visible")

/-- C3: once the debounced navbar scroll handler settles — i.e. after the
last fired scroll event, at offset `y` — and the navbar element is present,
the navbar has the `scrolled` class iff the offset exceeds 50px. -/
theorem navbar_scrolled_iff (events : List ℚ) (y : ℚ) (navbar : List String) :
    ∃ nb', runScrollEvents handleNavbarScroll (events ++ [y]) (some navbar) = some nb'
      ∧ ("scrolled" ∈ nb' ↔ 50 < y) := by
  obtain ⟨mid, hmid⟩ := runScrollEvents_navbar_some events navbar
  refine ⟨if CONFIG.scrollThreshold < y then classAdd mid "scrolled"
          else classRemove mid "scrolled", ?_, ?_⟩
  · simp [runScrollEvents, List.foldl_append] at hmid ⊢
    rw [hmid]
    rfl
  · exact mem_handleNavbarScroll y mid _ rfl

/-- C2: after the filter-button click handler for button `i` runs, a button
carries the `active` class exactly when it is the clicked one — for every
prior active-state of the buttons, hence along every sequence of clicks. -/
theorem clickFilter_exactly_one_active (btns : List (List String)) (i : Nat)
    (h : i < btns.length) (j : Nat) (cl : List String)
    (hj : (clickFilterActive btns i)[j]? = some cl) :
    "active" ∈ cl ↔ j = i := by
  unfold clickFilterActive at hj
  have hmap : (btns.map (fun cl => classRemove cl "active"))[i]? =
      Option.map (fun cl => classRemove cl "active") btns[i]? :=
    List.getElem?_map _ _ _
  obtain ⟨b, hb⟩ : ∃ b, btns[i]? = some b := ⟨btns[i], List.getElem?_eq_getElem h⟩
  rw [hb] at hmap
  simp only [hmap, Option.map_some'] at hj
  by_cases hij : j = i
  · subst hij
    rw [List.getElem?_set_self (by simpa using h)] at hj
    cases hj
    simp [self_mem_classAdd]
  · rw [List.getElem?_set_ne (fun hc => hij hc.symm)] at hj
    rw [List.getElem?_map] at hj
    obtain ⟨c, hc, rfl⟩ : ∃ c, btns[j]? = some c ∧ classRemove c "active" = cl := by
      cases hcj : btns[j]? with
      | none => rw [hcj] at hj; cases hj
      | some c => rw [hcj] at hj; exact ⟨c, rfl, by cases hj; rfl⟩
    simp [self_not_mem_classRemove, hij]

/-- Witness for C2: clicking button 0 of two buttons (the second initially
active) leaves exactly button 0 active. -/
theorem clickFilter_exactly_one_active_witness :
    "active" ∈ (["active"] : List String) ↔ (0 : Nat) = 0 :=
  clickFilter_exactly_one_active [[], ["active"]] 0 (by decide) 0 ["active"] (by decide)

/-- C1: after `filterBikes(c)` runs and the 300ms transition delay elapses,
the card at any index is visible (display not `none`) iff its
`data-category` equals `c`, or `c` is the wildcard `all`. -/
theorem filterBikes_visible_iff (c : String) (cards : List Card) (i : Nat)
    (h : i < cards.length) :
    ∃ card, cards[i]? = some card ∧
      (filterBikesSettled (some c) cards)[i]? = some (filterCardSettled (some c) card) ∧
      ((filterCardSettled (some c) card).display ≠ "none" ↔
        (c = "all" ∨ card.category = some c)) := by
  refine ⟨cards[i], List.getElem?_eq_getElem h, ?_, ?_⟩
  · unfold filterBikesSettled filterCardSettled
    rw [List.getElem?_map, List.getElem?_map, List.getElem?_eq_getElem h]
    rfl
  · unfold filterCardSettled filterCardStep elapseHide
    by_cases hs : (some c = some "all" ∨ (cards[i]).category = some c)
    · simp only [if_pos hs]
      simp only [Option.some.injEq] at hs
      simp [hs]
    · simp only [if_neg hs]
      simp only [Option.some.injEq] at hs
      simp [hs]

/-- Witness for C1: filtering two cards by `trail` leaves the `trail` card
(at index 0) visible. -/
theorem filterBikes_visible_iff_witness :
    ∃ card, ([⟨some "trail", "block", "1", ""⟩, ⟨some "road", "block", "1", ""⟩] :
        List Card)[0]? = some card ∧
      (filterBikesSettled (some "trail")
        [⟨some "trail", "block", "1", ""⟩, ⟨some "road", "block", "1", ""⟩])[0]? =
        some (filterCardSettled (some "trail") card) ∧
      ((filterCardSettled (some "trail") card).display ≠ "none" ↔
        ("trail" = "all" ∨ card.category = some "trail")) :=
  filterBikes_visible_iff "trail"
    [⟨some "trail", "block", "1", ""⟩, ⟨some "road", "block", "1", ""⟩] 0 (by decide)

/-- C8: with the menu element present, `toggleMobileMenu` is idempotent per
call on the menu classList and the body scroll lock; show adds `active` and
sets overflow to `hidden`, hide removes `active` and restores overflow. -/
theorem toggleMobileMenu_idem_spec (b : Bool) (st : MenuState) (cl : List String)
    (h : st.menu = some cl) :
    toggleMobileMenu b (toggleMobileMenu b st) = toggleMobileMenu b st ∧
    ∃ cl', (toggleMobileMenu b st).menu = some cl' ∧
      ("active" ∈ cl' ↔ b = true) ∧
      (toggleMobileMenu b st).bodyOverflow = (if b then "hidden" else "") := by
  cases b with
  | true =>
      refine ⟨?_, classAdd cl "active", ?_, ?_, ?_⟩
      · simp [toggleMobileMenu, h, classAdd_idem]
      · simp [toggleMobileMenu, h]
      · simp [self_mem_classAdd]
      · simp [toggleMobileMenu, h]
  | false =>
      refine ⟨?_, classRemove cl "active", ?_, ?_, ?_⟩
      · simp [toggleMobileMenu, h, classRemove_idem]
      · simp [toggleMobileMenu, h]
      · simp [self_not_mem_classRemove]
      · simp [toggleMobileMenu, h]

/-- Witness for C8: showing the menu from an empty classList twice equals
showing it once, with `active` present and scroll locked. -/
theorem toggleMobileMenu_idem_spec_witness :
    toggleMobileMenu true (toggleMobileMenu true ⟨some [], ""⟩) =
      toggleMobileMenu true ⟨some [], ""⟩ ∧
    ∃ cl', (toggleMobileMenu true ⟨some [], ""⟩).menu = some cl' ∧
      ("active" ∈ cl' ↔ true = true) ∧
      (toggleMobileMenu true ⟨some [], ""⟩).bodyOverflow =
        (if true then "hidden" else "") :=
  toggleMobileMenu_idem_spec true ⟨some [], ""⟩ [] rfl

/-- C9: for every behavior, an absent required element — a null cached
reference or an empty queried collection — makes the operation a silent
no-op that changes no page state: the navbar and back-to-top scroll
handlers leave the absent state absent, `toggleMobileMenu` returns the
whole state (body scroll lock included) unchanged, the loader callback does
nothing, a filter click over no buttons and a filter over no cards change
nothing, no smooth-scroll click can dispatch over an empty link collection,
a lazy-load observer pass over no entries touches nothing, and a submit
against a null contact form has no effect. -/
theorem absent_element_guards :
    (∀ y : ℚ, handleNavbarScroll y none = none) ∧
    (∀ y : ℚ, handleBackToTop y none = none) ∧
    (∀ (b : Bool) (ov : String), toggleMobileMenu b ⟨none, ov⟩ = ⟨none, ov⟩) ∧
    hideLoader none = none ∧
    (∀ i : Nat, clickFilterActive [] i = []) ∧
    (∀ category : Option String, filterBikesSettled category [] = []) ∧
    (∀ (i : Nat) (resolve : String → Option Int),
      smoothScrollClickAt [] i resolve = none) ∧
    lazyLoadPass [] = [] ∧
    contactFormDispatch none = none :=
  ⟨fun _ => rfl, fun _ => rfl, fun _ _ => rfl, rfl, fun _ => rfl, fun _ => rfl,
    fun _ _ => rfl, rfl, rfl⟩

/-- C4: once the debounced back-to-top scroll handler settles — i.e. after
the last fired scroll event, at offset `y` — and the back-to-top element is
present, the control has the `visible` class iff the offset exceeds 300px. -/
theorem backToTop_visible_iff (events : List ℚ) (y : ℚ) (btn : List String) :
    ∃ nb', runScrollEvents handleBackToTop (events ++ [y]) (some btn) = some nb'
      ∧ ("visible" ∈ nb' ↔ 300 < y) := by
  obtain ⟨mid, hmid⟩ := runScrollEvents_backToTop_some events btn
  refine ⟨if CONFIG.backToTopThreshold < y then classAdd mid "visible"
          else classRemove mid "visible", ?_, ?_⟩
  · simp [runScrollEvents, List.foldl_append] at hmid ⊢
    rw [hmid]
    rfl
  · exact mem_handleBackToTop y mid _ rfl

/-- C5: an intersecting image that has a `data-src` gets the deferred value
assigned to its `src` exactly once: the attribute is removed and the image
unobserved, and any later observer pass (intersecting or not) leaves the
image unchanged. -/
theorem lazyLoad_applies_once (img : Img) (s : String) (h : img.dataSrc = some s)
    (b : Bool) :
    (lazyLoadEntry true img).src = s ∧
    (lazyLoadEntry true img).dataSrc = none ∧
    (lazyLoadEntry true img).observed = false ∧
    lazyLoadEntry b (lazyLoadEntry true img) = lazyLoadEntry true img := by
  refine ⟨by simp [lazyLoadEntry, h], by simp [lazyLoadEntry, h],
    by simp [lazyLoadEntry, h], ?_⟩
  cases b <;> simp [lazyLoadEntry, h]

/-- Witness for C5: a watched image with deferred source `real.jpg` gets it
applied once and is then inert. -/
theorem lazyLoad_applies_once_witness :
    (lazyLoadEntry true ⟨"placeholder.jpg", some "real.jpg", true⟩).src = "real.jpg" ∧
    (lazyLoadEntry true ⟨"placeholder.jpg", some "real.jpg", true⟩).dataSrc = none ∧
    (lazyLoadEntry true ⟨"placeholder.jpg", some "real.jpg", true⟩).observed = false ∧
    lazyLoadEntry true (lazyLoadEntry true ⟨"placeholder.jpg", some "real.jpg", true⟩) =
      lazyLoadEntry true ⟨"placeholder.jpg", some "real.jpg", true⟩ :=
  lazyLoad_applies_once ⟨"placeholder.jpg", some "real.jpg", true⟩ "real.jpg" rfl true

/-- C10: an intersecting image with no `data-src` attribute is left
completely unchanged by the observer callback — source and observation
status included. -/
theorem lazyLoad_frame_no_dataSrc (img : Img) (h : img.dataSrc = none) :
    lazyLoadEntry true img = img := by
  simp [lazyLoadEntry, h]

/-- Witness for C10: an already-loaded, still-watched image is untouched. -/
theorem lazyLoad_frame_no_dataSrc_witness :
    lazyLoadEntry true ⟨"real.jpg", none, true⟩ = ⟨"real.jpg", none, true⟩ :=
  lazyLoad_frame_no_dataSrc ⟨"real.jpg", none, true⟩ rfl

/-- C6: the contact-form submit handler prevents the default navigation,
leaves every form field empty, and besides showing the single notification
changes nothing else on the page. -/
theorem contactFormSubmit_spec (p : ContactPage) (v : String)
    (hv : v ∈ (contactFormSubmit p).2.2.fields) :
    (contactFormSubmit p).1 = true ∧ v = "" ∧
    (contactFormSubmit p).2.2.rest = p.rest ∧
    (contactFormSubmit p).2.1 = ["شكراً لرسالتك! سنتواصل معك قريباً."] := by
  refine ⟨rfl, ?_, rfl, rfl⟩
  simp only [contactFormSubmit, formReset, List.mem_map] at hv
  obtain ⟨a, _, ha⟩ := hv
  exact ha.symm

/-- Witness for C6: submitting a one-field form leaves its field empty. -/
theorem contactFormSubmit_spec_witness :
    (contactFormSubmit ⟨["hello"], "page"⟩).1 = true ∧ "" = "" ∧
    (contactFormSubmit ⟨["hello"], "page"⟩).2.2.rest = (⟨["hello"], "page"⟩ : ContactPage).rest ∧
    (contactFormSubmit ⟨["hello"], "page"⟩).2.1 = ["شكراً لرسالتك! سنتواصل معك قريباً."] :=
  contactFormSubmit_spec ⟨["hello"], "page"⟩ "" (by decide)

/-- C7 counterexample: clicking an anchor link whose target selector does
not resolve is not a no-op — the handler has already called
`preventDefault`, so the default navigation behavior is changed. -/
theorem smoothScroll_unresolved_not_noop :
    (smoothScrollClick "#missing" (fun _ => none)).defaultPrevented = true := by
  decide

/-- C7 amended: for a click on an in-page anchor link, the default jump is
always cancelled; when the target selector resolves the page is scrolled to
the target's `offsetTop - 80`, and when it does not resolve no scrolling
occurs (captured by `Option.map`). -/
theorem smoothScroll_amended (href : String) (resolve : String → Option Int)
    (h : hrefIsInternal href = true) :
    (smoothScrollClick href resolve).defaultPrevented = true ∧
    (smoothScrollClick href resolve).scrolledTo =
      (resolve href).map (fun offsetTop => offsetTop - 80) := by
  simp [smoothScrollClick, h]

/-- Witness for C7's amended claim: clicking `#contact` with the target at
`offsetTop` 500 scrolls to 420 and cancels the default jump. -/
theorem smoothScroll_amended_witness :
    (smoothScrollClick "#contact" (fun _ => some 500)).defaultPrevented = true ∧
    (smoothScrollClick "#contact" (fun _ => some 500)).scrolledTo =
      ((fun _ : String => some (500 : Int)) "#contact").map
        (fun offsetTop => offsetTop - 80) :=
  smoothScroll_amended "#contact" (fun _ => some 500) (by decide)

end Cycliste
